import Mathlib

/-!
Shallow embedding of the C type-representation core (src/src/types.rs) of the
rust-cc repository, together with theorems checking the specification's claims
about it.

Modelling conventions:
* Rust `panic!`/failed `assert!` (a fatal abort of the run) is modelled by
  `Option.none` in the result of the operation, while a returned boolean or
  value `v` is `some v`.
* `Rc<RefCell<T>>` identity cells are modelled by a `Store T` (an allocation
  list) together with handles (`RcRefCellPtrEq`) carrying the allocation index,
  which plays the role of the pointer address; `Rc::ptr_eq` is index equality.
* Machine integers (`u8` qualifier bit sets, `u64` array sizes) are modelled by
  `Nat`; the only operations used on them (bitwise and/or on values below 8,
  and equality) never overflow.
-/

set_option autoImplicit false

/-- Boolean signedness (`Signedness` in src/src/types.rs). -/
inductive Signedness where
  | Signed
  | Unsigned
deriving DecidableEq, Repr

/-- `Signedness::from_bool_signed` from src/src/types.rs. -/
def Signedness.from_bool_signed (s : Bool) : Signedness :=
  if s then Signedness.Signed else Signedness.Unsigned

/-- `Signedness::is_unsigned` from src/src/types.rs. -/
def Signedness.is_unsigned (s : Signedness) : Bool :=
  decide (s = Signedness.Unsigned)

/-- Integer classification (`IntClass` in src/src/types.rs). -/
inductive IntClass where
  | Bits (s : Signedness) (w : Nat)
  | Char (s : Option Signedness)
  | Short (s : Signedness)
  | Int (s : Signedness)
  | Long (s : Signedness)
  | LongLong (s : Signedness)
deriving DecidableEq, Repr

/-- `IntClass::char` from src/src/types.rs. -/
def IntClass.char : IntClass := IntClass.Char Option.none

/-- `IntClass::int` from src/src/types.rs. -/
def IntClass.int : IntClass := IntClass.Int Signedness.Signed

/-- Float classification (`FloatClass` in src/src/types.rs). -/
inductive FloatClass where
  | Float
  | Double
  | LongDouble
deriving DecidableEq, Repr

/-- Storage classes (`StorageClass` in src/src/types.rs). -/
inductive StorageClass where
  | Auto
  | Extern
  | Static
  | Register
deriving DecidableEq, Repr

/-- Magic (compiler-builtin) types (`MagicType` in src/src/types.rs). -/
inductive MagicType where
  | VaList
  | Named (a : String) (b : String)
deriving DecidableEq, Repr

/-- Qualifier flag set (`Qualifiers` in src/src/types.rs): a `u8` with
const = bit 0, volatile = bit 1, restrict = bit 2. -/
structure Qualifiers where
  v : Nat
deriving DecidableEq, Repr

/-- `Qualifiers::new` from src/src/types.rs: all flags clear. -/
def Qualifiers.new : Qualifiers := ⟨0⟩

/-- `Qualifiers::set_const` (`self.v |= 1`), modelled functionally. -/
def Qualifiers.set_const (q : Qualifiers) : Qualifiers := ⟨q.v ||| 1⟩

/-- `Qualifiers::set_volatile` (`self.v |= 2`), modelled functionally. -/
def Qualifiers.set_volatile (q : Qualifiers) : Qualifiers := ⟨q.v ||| 2⟩

/-- `Qualifiers::set_restrict` (`self.v |= 4`), modelled functionally. -/
def Qualifiers.set_restrict (q : Qualifiers) : Qualifiers := ⟨q.v ||| 4⟩

/-- `Qualifiers::is_const` (`self.v & 1 != 0`). -/
def Qualifiers.is_const (q : Qualifiers) : Bool := q.v &&& 1 != 0

/-- `Qualifiers::is_volatile` (`self.v & 2 != 0`). -/
def Qualifiers.is_volatile (q : Qualifiers) : Bool := q.v &&& 2 != 0

/-- `Qualifiers::is_restrict` (`self.v & 4 != 0`). -/
def Qualifiers.is_restrict (q : Qualifiers) : Bool := q.v &&& 4 != 0

/-- `Qualifiers::is_lesser_than` (`self.v & other.v == self.v`). -/
def Qualifiers.is_lesser_than (q other : Qualifiers) : Bool :=
  q.v &&& other.v == q.v

/-- `Qualifiers::merge_from` (`self.v |= other.v`), modelled functionally. -/
def Qualifiers.merge_from (q other : Qualifiers) : Qualifiers := ⟨q.v ||| other.v⟩

/-- The derived `PartialEq` on `Qualifiers` (compares the single field `v`). -/
def Qualifiers.eq (a b : Qualifiers) : Bool := a.v == b.v

/-- The allocation store backing `Rc<RefCell<T>>` cells: the list of cells
allocated so far, in allocation order. -/
abbrev Store (T : Type) : Type := List T

/-- `RcRefCellPtrEq<T>` handle from src/src/types.rs: a shared pointer to a
cell, modelled as the cell's allocation index (its address). -/
structure RcRefCellPtrEq where
  ptr : Nat
deriving DecidableEq, Repr

/-- `RcRefCellPtrEq::new`: allocate a fresh, independently identified cell
holding `v`, returning the handle along with the grown store. -/
def RcRefCellPtrEq.new {T : Type} (v : T) (st : Store T) :
    RcRefCellPtrEq × Store T :=
  (⟨List.length st⟩, st ++ [v])

/-- The `PartialEq` impl for `RcRefCellPtrEq<T>`: `Rc::ptr_eq`, i.e. address
identity — the pointed-to value is never inspected. -/
def RcRefCellPtrEq.eq (a b : RcRefCellPtrEq) : Bool := a.ptr == b.ptr

/-- The `Clone` impl for `RcRefCellPtrEq<T>`: clones the `Rc` handle, sharing
the same cell (same address). -/
def RcRefCellPtrEq.clone (a : RcRefCellPtrEq) : RcRefCellPtrEq := a

/-- Read the cell a handle points at in a given store. -/
def Store.get {T : Type} (st : Store T) (h : RcRefCellPtrEq) : Option T :=
  st[h.ptr]?

/-- Modelled from the spec: array-size expressions are carried opaquely, not
evaluated (the `ast::Node` type lives in the `ast` module, which is not part of
the provided sources); equality on them is never consulted, so an opaque
numeric identifier suffices as carrier. -/
structure AstNode where
  id : Nat
deriving DecidableEq, Repr

/-- `ArraySizeExpr` from src/src/types.rs: an `Rc<ast::Node>` wrapper. -/
structure ArraySizeExpr where
  node : AstNode
deriving DecidableEq, Repr

/-- The manual `PartialEq` impl for `ArraySizeExpr`: it unconditionally
`panic!`s ("TODO: eq for ArraySizeExpr"), modelled as `Option.none`. -/
def ArraySizeExpr.eq (_a _b : ArraySizeExpr) : Option Bool := Option.none

/-- `ArraySize` from src/src/types.rs. `Fixed` carries a `u64`. -/
inductive ArraySize where
  | None
  | Fixed (n : Nat)
  | Expr (e : ArraySizeExpr)

/-- The `From<ArraySizeExpr>` impl for `ArraySize`. -/
def ArraySize.from (v : ArraySizeExpr) : ArraySize := ArraySize.Expr v

/-- The derived `PartialEq` on `ArraySize`: different variants are unequal;
`Fixed` payloads compare numerically; comparing two `Expr` payloads calls
`ArraySizeExpr::eq`, which panics (`Option.none`). -/
def ArraySize.beq : ArraySize → ArraySize → Option Bool
  | ArraySize.None, ArraySize.None => some true
  | ArraySize.Fixed a, ArraySize.Fixed b => some (a == b)
  | ArraySize.Expr a, ArraySize.Expr b => ArraySizeExpr.eq a b
  | _, _ => some false

mutual

/-- `Type` from src/src/types.rs: `{ basetype, qualifiers }`. Named `CType`
because `Type` is reserved in Lean. -/
inductive CType where
  | mk (basetype : BaseType) (qualifiers : Qualifiers)

/-- `BaseType` from src/src/types.rs. The `Rc<Type>` payloads of `Pointer`
and `Array` are shared immutable nodes, so they are embedded structurally. -/
inductive BaseType where
  | Void
  | Bool
  | Struct (r : RcRefCellPtrEq)
  | Enum (r : RcRefCellPtrEq)
  | Union (r : RcRefCellPtrEq)
  | Float (c : FloatClass)
  | Integer (c : IntClass)
  | MagicType (m : MagicType)
  | Pointer (t : CType)
  | Array (t : CType) (size : ArraySize)
  | Function (f : FunctionType)

/-- `FunctionType` from src/src/types.rs: return type and the ordered
`(type, parameter name)` list. -/
inductive FunctionType where
  | mk (ret : CType) (args : List (CType × String))

end

/-- Field accessor for `Type::basetype`. -/
def CType.basetype : CType → BaseType
  | CType.mk b _ => b

/-- Field accessor for `Type::qualifiers`. -/
def CType.qualifiers : CType → Qualifiers
  | CType.mk _ q => q

/-- Field accessor for `FunctionType::ret`. -/
def FunctionType.ret : FunctionType → CType
  | FunctionType.mk r _ => r

/-- Field accessor for `FunctionType::args`. -/
def FunctionType.args : FunctionType → List (CType × String)
  | FunctionType.mk _ a => a

mutual

/-- The derived `PartialEq` on `Type`: compares `basetype` then `qualifiers`,
short-circuiting; a panic below propagates (`Option.none`). -/
def CType.beq : CType → CType → Option Bool
  | CType.mk b1 q1, CType.mk b2 q2 =>
    match BaseType.beq b1 b2 with
    | Option.none => Option.none
    | some false => some false
    | some true => some (Qualifiers.eq q1 q2)

/-- The derived `PartialEq` on `BaseType`: variant discriminants first, then
payload fields in order, short-circuiting on the first inequality. -/
def BaseType.beq : BaseType → BaseType → Option Bool
  | BaseType.Void, BaseType.Void => some true
  | BaseType.Bool, BaseType.Bool => some true
  | BaseType.Struct a, BaseType.Struct b => some (RcRefCellPtrEq.eq a b)
  | BaseType.Enum a, BaseType.Enum b => some (RcRefCellPtrEq.eq a b)
  | BaseType.Union a, BaseType.Union b => some (RcRefCellPtrEq.eq a b)
  | BaseType.Float a, BaseType.Float b => some (decide (a = b))
  | BaseType.Integer a, BaseType.Integer b => some (decide (a = b))
  | BaseType.MagicType a, BaseType.MagicType b => some (decide (a = b))
  | BaseType.Pointer a, BaseType.Pointer b => CType.beq a b
  | BaseType.Array t1 s1, BaseType.Array t2 s2 =>
    match CType.beq t1 t2 with
    | Option.none => Option.none
    | some false => some false
    | some true => ArraySize.beq s1 s2
  | BaseType.Function f1, BaseType.Function f2 => FunctionType.beq f1 f2
  | _, _ => some false

/-- The manual `PartialEq` impl for `FunctionType`: full equality of return
types, then argument-count equality, then pairwise equality of the argument
*base types only* (ignoring parameter qualifiers and names), in order,
short-circuiting left to right. -/
def FunctionType.beq : FunctionType → FunctionType → Option Bool
  | FunctionType.mk r1 a1, FunctionType.mk r2 a2 =>
    match CType.beq r1 r2 with
    | Option.none => Option.none
    | some false => some false
    | some true =>
      if List.length a1 == List.length a2 then argsBeq a1 a2 else some false

/-- The `zip(..).all(..)` step of `FunctionType::eq`: walks both argument
lists in lockstep comparing only each parameter's `basetype`, stopping at the
first `false` (like `Iterator::all`) and propagating panics. -/
def argsBeq : List (CType × String) → List (CType × String) → Option Bool
  | (CType.mk b1 _, _) :: rest1, (CType.mk b2 _, _) :: rest2 =>
    match BaseType.beq b1 b2 with
    | Option.none => Option.none
    | some false => some false
    | some true => argsBeq rest1 rest2
  | _, _ => some true

end

/-- `Rc<Type>` alias (`TypeRef` in src/src/types.rs): a shared immutable node,
embedded structurally. -/
abbrev TypeRef := CType

/-- `Type::new_ref` from src/src/types.rs: allocate a new immutable node. -/
def CType.new_ref (basetype : BaseType) (qualifiers : Qualifiers) : TypeRef :=
  CType.mk basetype qualifiers

/-- `Type::new_ref_bare` from src/src/types.rs: `new_ref` with fresh
(all-clear) qualifiers. -/
def CType.new_ref_bare (basetype : BaseType) : TypeRef :=
  CType.new_ref basetype Qualifiers.new

/-- `Struct` tag record from src/src/types.rs: a name and an optional member
list; `items` is absent while the struct is only forward-declared. -/
structure Struct where
  name : String
  items : Option (List (TypeRef × String))

/-- `Union` tag record from src/src/types.rs. Named `CUnion` because `Union`
is taken by the library. -/
structure CUnion where
  name : String
  items : Option (List (TypeRef × String))

/-- `Enum` tag record from src/src/types.rs: items are `(u64 value, name)`
pairs. -/
structure Enum where
  name : String
  items : Option (List (Nat × String))

/-- `Struct::new_ref`: allocate a fresh identity cell holding an unpopulated
record with the given name. -/
def Struct.new_ref (n : String) (st : Store Struct) :
    RcRefCellPtrEq × Store Struct :=
  RcRefCellPtrEq.new (Struct.mk n Option.none) st

/-- `Struct::is_populated`: whether `items` has been set. -/
def Struct.is_populated (s : Struct) : Bool := s.items.isSome

/-- `Struct::set_items`: `assert!(self.items.is_none())` then store the items;
a failed assertion is a panic (`Option.none`), leaving nothing written. -/
def Struct.set_items (s : Struct) (items : List (TypeRef × String)) :
    Option Struct :=
  if s.items.isNone then some (Struct.mk s.name (some items)) else Option.none

/-- `Union::new_ref` from src/src/types.rs. -/
def CUnion.new_ref (n : String) (st : Store CUnion) :
    RcRefCellPtrEq × Store CUnion :=
  RcRefCellPtrEq.new (CUnion.mk n Option.none) st

/-- `Union::is_populated` from src/src/types.rs. -/
def CUnion.is_populated (s : CUnion) : Bool := s.items.isSome

/-- `Union::set_items` from src/src/types.rs (assert-then-set, as for
`Struct`). -/
def CUnion.set_items (s : CUnion) (items : List (TypeRef × String)) :
    Option CUnion :=
  if s.items.isNone then some (CUnion.mk s.name (some items)) else Option.none

/-- `Enum::new_ref` from src/src/types.rs. -/
def Enum.new_ref (n : String) (st : Store Enum) :
    RcRefCellPtrEq × Store Enum :=
  RcRefCellPtrEq.new (Enum.mk n Option.none) st

/-- `Enum::is_populated` from src/src/types.rs. -/
def Enum.is_populated (s : Enum) : Bool := s.items.isSome

/-- `Enum::set_items` from src/src/types.rs (assert-then-set). -/
def Enum.set_items (s : Enum) (items : List (Nat × String)) : Option Enum :=
  if s.items.isNone then some (Enum.mk s.name (some items)) else Option.none

/-- Modelled from the spec: the dynamic borrow flag of the standard library's
`RefCell` (the `RefCell` implementation itself is not part of the provided
sources; `RcRefCellPtrEq::borrow`/`borrow_mut` in src/src/types.rs only
delegate to it). `Reading n` means `n + 1` outstanding shared borrows. -/
inductive BorrowState where
  | Unused
  | Reading (n : Nat)
  | Writing
deriving DecidableEq, Repr

/-- A `RefCell`: the contained value together with its runtime borrow flag. -/
structure RefCellState (T : Type) where
  value : T
  flag : BorrowState

/-- Modelled from the spec: `RefCell::borrow` takes a shared borrow, panicking
(`Option.none`) if an exclusive borrow is outstanding. -/
def RefCellState.borrow {T : Type} (c : RefCellState T) :
    Option (RefCellState T) :=
  match c.flag with
  | BorrowState.Unused => some (RefCellState.mk c.value (BorrowState.Reading 0))
  | BorrowState.Reading n =>
    some (RefCellState.mk c.value (BorrowState.Reading (n + 1)))
  | BorrowState.Writing => Option.none

/-- Modelled from the spec: `RefCell::borrow_mut` takes the exclusive borrow,
panicking (`Option.none`) if *any* borrow — shared or exclusive — is still
outstanding on the same cell. -/
def RefCellState.borrow_mut {T : Type} (c : RefCellState T) :
    Option (RefCellState T) :=
  match c.flag with
  | BorrowState.Unused => some (RefCellState.mk c.value BorrowState.Writing)
  | BorrowState.Reading _ => Option.none
  | BorrowState.Writing => Option.none

/-- `set_items` performed through `borrow_mut` on a struct cell: first take
the exclusive borrow (panicking if any borrow of the cell is outstanding),
then run `Struct::set_items`; the exclusive borrow is released when the
mutable reference is dropped at the end of the statement. -/
def RefCellState.set_items_mut (c : RefCellState Struct)
    (items : List (TypeRef × String)) : Option (RefCellState Struct) :=
  match RefCellState.borrow_mut c with
  | Option.none => Option.none
  | some c2 =>
    match Struct.set_items c2.value items with
    | Option.none => Option.none
    | some v => some (RefCellState.mk v BorrowState.Unused)

/-- The type `int` (plain signed int), unqualified. -/
def int_t : CType := CType.new_ref_bare (BaseType.Integer IntClass.int)

/-- The type `const int`. -/
def const_int_t : CType :=
  CType.new_ref (BaseType.Integer IntClass.int)
    (Qualifiers.set_const Qualifiers.new)

/-- The type `void`, unqualified. -/
def void_t : CType := CType.new_ref_bare BaseType.Void

/-- The function type `fn(int) -> void`. -/
def fn_int_void : FunctionType := FunctionType.mk void_t [(int_t, "x")]

/-- The function type `fn(const int) -> void` (different parameter name on
purpose). -/
def fn_const_int_void : FunctionType :=
  FunctionType.mk void_t [(const_int_t, "y")]

/-- The function type `fn(int, int) -> void`. -/
def fn_int_int_void : FunctionType :=
  FunctionType.mk void_t [(int_t, "a"), (int_t, "b")]

/-- The type `*int` (pointer to int). -/
def ptr_int_t : CType := CType.new_ref_bare (BaseType.Pointer int_t)

/-- The type `*const int` (pointer to const int). -/
def ptr_const_int_t : CType := CType.new_ref_bare (BaseType.Pointer const_int_t)

/-- A type `int[5]`, constructed independently of `array_int_5_b`. -/
def array_int_5_a : CType :=
  CType.new_ref_bare (BaseType.Array int_t (ArraySize.Fixed 5))

/-- A second, independently constructed `int[5]`. -/
def array_int_5_b : CType :=
  CType.new_ref_bare (BaseType.Array int_t (ArraySize.Fixed 5))

mutual

/-- Self-comparison under the derived `PartialEq` on `Type` never returns
`false`: it is `true`, or a panic (`Option.none`) from an `Expr`-sized array
reached inside. -/
theorem CType.beq_self_ne_false : ∀ t : CType, CType.beq t t ≠ some false
  | CType.mk b q => by
    simp only [CType.beq]
    cases h : BaseType.beq b b with
    | none => simp
    | some v =>
      cases v with
      | false => exact absurd h (BaseType.basetype_beq_self_ne_false b)
      | true => simp [Qualifiers.eq]

/-- Self-comparison on `BaseType` never returns `false`. -/
theorem BaseType.basetype_beq_self_ne_false : ∀ b : BaseType, BaseType.beq b b ≠ some false
  | BaseType.Void => by simp [BaseType.beq]
  | BaseType.Bool => by simp [BaseType.beq]
  | BaseType.Struct a => by simp [BaseType.beq, RcRefCellPtrEq.eq]
  | BaseType.Enum a => by simp [BaseType.beq, RcRefCellPtrEq.eq]
  | BaseType.Union a => by simp [BaseType.beq, RcRefCellPtrEq.eq]
  | BaseType.Float a => by simp [BaseType.beq]
  | BaseType.Integer a => by simp [BaseType.beq]
  | BaseType.MagicType a => by simp [BaseType.beq]
  | BaseType.Pointer t => by
    simp only [BaseType.beq]
    exact CType.beq_self_ne_false t
  | BaseType.Array t s => by
    simp only [BaseType.beq]
    cases h : CType.beq t t with
    | none => simp
    | some v =>
      cases v with
      | false => exact absurd h (CType.beq_self_ne_false t)
      | true =>
        cases s with
        | None => simp [ArraySize.beq]
        | Fixed n => simp [ArraySize.beq]
        | Expr e => simp [ArraySize.beq, ArraySizeExpr.eq]
  | BaseType.Function f => by
    simp only [BaseType.beq]
    exact FunctionType.fn_beq_self_ne_false f

/-- Self-comparison on `FunctionType` never returns `false`. -/
theorem FunctionType.fn_beq_self_ne_false :
    ∀ f : FunctionType, FunctionType.beq f f ≠ some false
  | FunctionType.mk r args => by
    simp only [FunctionType.beq]
    cases h : CType.beq r r with
    | none => simp
    | some v =>
      cases v with
      | false => exact absurd h (CType.beq_self_ne_false r)
      | true =>
        simp only [beq_self_eq_true, if_true]
        exact argsBeq_self_ne_false args

/-- Walking an argument list against itself never returns `false`. -/
theorem argsBeq_self_ne_false :
    ∀ l : List (CType × String), argsBeq l l ≠ some false
  | [] => by simp [argsBeq]
  | (CType.mk b q, s) :: rest => by
    simp only [argsBeq]
    cases h : BaseType.beq b b with
    | none => simp
    | some v =>
      cases v with
      | false => exact absurd h (BaseType.basetype_beq_self_ne_false b)
      | true => exact argsBeq_self_ne_false rest

end

/-- Self-comparison on `Type` is `true` or a panic, never `false`. -/
theorem CType.beq_self_true_or_panic (t : CType) :
    CType.beq t t = some true ∨ CType.beq t t = Option.none := by
  cases h : CType.beq t t with
  | none => exact Or.inr rfl
  | some v =>
    cases v with
    | false => exact absurd h (CType.beq_self_ne_false t)
    | true => exact Or.inl rfl

/-- For argument lists of equal length, the lockstep basetype walk returns
`true` exactly when each parameter pair's base types compare equal. -/
theorem argsBeq_eq_true_iff :
    ∀ l1 l2 : List (CType × String), List.length l1 = List.length l2 →
      (argsBeq l1 l2 = some true ↔
        List.Forall₂ (fun a b : CType × String =>
          BaseType.beq (CType.basetype a.1) (CType.basetype b.1) = some true)
          l1 l2)
  | [], [] => by simp [argsBeq]
  | [], y :: l2 => by intro h; simp at h
  | x :: l1, [] => by intro h; simp at h
  | (CType.mk b1 q1, s1) :: l1, (CType.mk b2 q2, s2) :: l2 => by
    intro h
    simp only [List.length_cons, Nat.add_right_cancel_iff] at h
    simp only [argsBeq]
    cases hb : BaseType.beq b1 b2 with
    | none => simp [List.forall₂_cons, CType.basetype, hb]
    | some v =>
      cases v with
      | false => simp [List.forall₂_cons, CType.basetype, hb]
      | true =>
        simp [List.forall₂_cons, CType.basetype, hb,
          argsBeq_eq_true_iff l1 l2 h]

/-- Comparing two array types whose sizes are both `Expr` panics whenever the
element comparison does not already fail: the element comparison runs first
and short-circuits only on `false`. -/
theorem beq_expr_array_none (t1 t2 : CType) (q1 q2 : Qualifiers)
    (e1 e2 : ArraySizeExpr) (h : CType.beq t1 t2 ≠ some false) :
    CType.beq (CType.mk (BaseType.Array t1 (ArraySize.Expr e1)) q1)
      (CType.mk (BaseType.Array t2 (ArraySize.Expr e2)) q2) = Option.none := by
  simp only [CType.beq, BaseType.beq]
  cases hc : CType.beq t1 t2 with
  | none => rfl
  | some v =>
    cases v with
    | false => exact absurd hc h
    | true => simp [ArraySize.beq, ArraySizeExpr.eq]

/-- A freshly allocated cell holds the value it was created with. -/
theorem Store.get_new_self {T : Type} (v : T) (st : Store T) :
    Store.get (RcRefCellPtrEq.new v st).2 (RcRefCellPtrEq.new v st).1
      = some v := by
  simp [Store.get, RcRefCellPtrEq.new, List.getElem?_concat_length]

/-- Allocating a new cell leaves every previously allocated cell readable and
unchanged. -/
theorem Store.get_new_preserve {T : Type} (v : T) (st : Store T)
    (h : RcRefCellPtrEq) (hlt : h.ptr < List.length st) :
    Store.get (RcRefCellPtrEq.new v st).2 h = Store.get st h := by
  simp [Store.get, RcRefCellPtrEq.new, List.getElem?_append_left hlt]

/-- C1: equality between tag handles is identity-based: a second independent
`new_ref` with the same name yields a handle unequal to the first even though
both records hold the same name and (absent) contents; cloning a handle yields
an equal handle; and handle equality is exactly identity of the underlying
cell, never inspecting the record. -/
theorem C1_tag_handle_identity :
    (∀ (st : Store Struct) (n : String),
      RcRefCellPtrEq.eq (Struct.new_ref n st).1
          (Struct.new_ref n (Struct.new_ref n st).2).1 = false
      ∧ RcRefCellPtrEq.eq (RcRefCellPtrEq.clone (Struct.new_ref n st).1)
          (Struct.new_ref n st).1 = true
      ∧ Store.get (Struct.new_ref n (Struct.new_ref n st).2).2
          (Struct.new_ref n st).1 = some (Struct.mk n Option.none)
      ∧ Store.get (Struct.new_ref n (Struct.new_ref n st).2).2
          (Struct.new_ref n (Struct.new_ref n st).2).1
          = some (Struct.mk n Option.none))
    ∧ (∀ (st : Store CUnion) (n : String),
      RcRefCellPtrEq.eq (CUnion.new_ref n st).1
          (CUnion.new_ref n (CUnion.new_ref n st).2).1 = false
      ∧ RcRefCellPtrEq.eq (RcRefCellPtrEq.clone (CUnion.new_ref n st).1)
          (CUnion.new_ref n st).1 = true)
    ∧ (∀ (st : Store Enum) (n : String),
      RcRefCellPtrEq.eq (Enum.new_ref n st).1
          (Enum.new_ref n (Enum.new_ref n st).2).1 = false
      ∧ RcRefCellPtrEq.eq (RcRefCellPtrEq.clone (Enum.new_ref n st).1)
          (Enum.new_ref n st).1 = true)
    ∧ (∀ a b : RcRefCellPtrEq, RcRefCellPtrEq.eq a b = true ↔ a = b) := by
  refine ⟨?_, ?_, ?_, ?_⟩
  · intro st n
    refine ⟨?_, ?_, ?_, ?_⟩
    · simp [Struct.new_ref, RcRefCellPtrEq.new, RcRefCellPtrEq.eq]
    · simp [RcRefCellPtrEq.clone, RcRefCellPtrEq.eq]
    · have hlt : (Struct.new_ref n st).1.ptr < List.length (Struct.new_ref n st).2 := by
        simp [Struct.new_ref, RcRefCellPtrEq.new]
      rw [show (Struct.new_ref n (Struct.new_ref n st).2).2
            = (RcRefCellPtrEq.new (Struct.mk n Option.none) (Struct.new_ref n st).2).2 from rfl,
        Store.get_new_preserve _ _ _ hlt]
      exact Store.get_new_self _ _
    · exact Store.get_new_self _ _
  · intro st n
    constructor
    · simp [CUnion.new_ref, RcRefCellPtrEq.new, RcRefCellPtrEq.eq]
    · simp [RcRefCellPtrEq.clone, RcRefCellPtrEq.eq]
  · intro st n
    constructor
    · simp [Enum.new_ref, RcRefCellPtrEq.new, RcRefCellPtrEq.eq]
    · simp [RcRefCellPtrEq.clone, RcRefCellPtrEq.eq]
  · intro a b
    cases a with
    | mk pa =>
      cases b with
      | mk pb => simp [RcRefCellPtrEq.eq]

/-- C4: for each tag-record kind, `is_populated` is false right after
`new_ref` (whose record holds the name and absent items); after a successful
`set_items` the record is populated with exactly the supplied items; a second
`set_items` on that record is a fatal error (panic, modelled `Option.none`),
so the stored items are never replaced or cleared. -/
theorem C4_set_items_exactly_once :
    (∀ (n : String) (st : Store Struct),
        Store.get (Struct.new_ref n st).2 (Struct.new_ref n st).1
          = some (Struct.mk n Option.none))
    ∧ (∀ n : String, Struct.is_populated (Struct.mk n Option.none) = false)
    ∧ (∀ (s s' : Struct) (items : List (TypeRef × String)),
        Struct.set_items s items = some s' →
          Struct.is_populated s' = true ∧ s'.items = some items
          ∧ ∀ items2 : List (TypeRef × String),
              Struct.set_items s' items2 = Option.none)
    ∧ (∀ n : String, CUnion.is_populated (CUnion.mk n Option.none) = false)
    ∧ (∀ (s s' : CUnion) (items : List (TypeRef × String)),
        CUnion.set_items s items = some s' →
          CUnion.is_populated s' = true ∧ s'.items = some items
          ∧ ∀ items2 : List (TypeRef × String),
              CUnion.set_items s' items2 = Option.none)
    ∧ (∀ n : String, Enum.is_populated (Enum.mk n Option.none) = false)
    ∧ (∀ (s s' : Enum) (items : List (Nat × String)),
        Enum.set_items s items = some s' →
          Enum.is_populated s' = true ∧ s'.items = some items
          ∧ ∀ items2 : List (Nat × String),
              Enum.set_items s' items2 = Option.none) := by
  refine ⟨?_, ?_, ?_, ?_, ?_, ?_, ?_⟩
  · intro n st
    exact Store.get_new_self _ _
  · intro n
    rfl
  · intro s s' items h
    cases s with
    | mk nm it =>
      cases it with
      | none =>
        simp only [Struct.set_items, Option.isNone_none, if_true,
          Option.some.injEq] at h
        subst h
        exact ⟨rfl, rfl, fun items2 => rfl⟩
      | some old =>
        simp [Struct.set_items] at h
  · intro n
    rfl
  · intro s s' items h
    cases s with
    | mk nm it =>
      cases it with
      | none =>
        simp only [CUnion.set_items, Option.isNone_none, if_true,
          Option.some.injEq] at h
        subst h
        exact ⟨rfl, rfl, fun items2 => rfl⟩
      | some old =>
        simp [CUnion.set_items] at h
  · intro n
    rfl
  · intro s s' items h
    cases s with
    | mk nm it =>
      cases it with
      | none =>
        simp only [Enum.set_items, Option.isNone_none, if_true,
          Option.some.injEq] at h
        subst h
        exact ⟨rfl, rfl, fun items2 => rfl⟩
      | some old =>
        simp [Enum.set_items] at h

/-- Witness for `C4_set_items_exactly_once`: populating a fresh record named
"S" (for each of struct, union, enum) succeeds, yields a populated record with
exactly the supplied (empty) item list, and a second `set_items` panics. -/
theorem C4_set_items_exactly_once_witness :
    (Struct.is_populated (Struct.mk "S" (some [])) = true
      ∧ (Struct.mk "S" (some [])).items = some ([] : List (TypeRef × String))
      ∧ Struct.set_items (Struct.mk "S" (some [])) [] = Option.none)
    ∧ (CUnion.is_populated (CUnion.mk "U" (some [])) = true
      ∧ CUnion.set_items (CUnion.mk "U" (some [])) [] = Option.none)
    ∧ (Enum.is_populated (Enum.mk "E" (some [])) = true
      ∧ Enum.set_items (Enum.mk "E" (some [])) [] = Option.none) :=
  have hs := C4_set_items_exactly_once.2.2.1 (Struct.mk "S" Option.none)
    (Struct.mk "S" (some [])) [] rfl
  have hu := C4_set_items_exactly_once.2.2.2.2.1 (CUnion.mk "U" Option.none)
    (CUnion.mk "U" (some [])) [] rfl
  have he := C4_set_items_exactly_once.2.2.2.2.2.2 (Enum.mk "E" Option.none)
    (Enum.mk "E" (some [])) [] rfl
  ⟨⟨hs.1, hs.2.1, hs.2.2 []⟩, ⟨hu.1, hu.2.2 []⟩, ⟨he.1, he.2.2 []⟩⟩

/-- C6: taking the exclusive borrow of a tag-record cell succeeds exactly when
no borrow of that cell is outstanding; consequently a `set_items` performed
through `borrow_mut` while any other borrow is live fails fatally (panic,
modelled `Option.none`) instead of granting overlapping access. -/
theorem C6_borrow_mut_exclusive :
    (∀ (T : Type) (c : RefCellState T),
        (RefCellState.borrow_mut c).isSome = true ↔ c.flag = BorrowState.Unused)
    ∧ (∀ (c : RefCellState Struct) (items : List (TypeRef × String)),
        c.flag ≠ BorrowState.Unused →
          RefCellState.set_items_mut c items = Option.none) := by
  constructor
  · intro T c
    cases c with
    | mk v flag =>
      cases flag with
      | Unused => simp [RefCellState.borrow_mut]
      | Reading n => simp [RefCellState.borrow_mut]
      | Writing => simp [RefCellState.borrow_mut]
  · intro c items h
    cases c with
    | mk v flag =>
      cases flag with
      | Unused => exact absurd rfl h
      | Reading n => rfl
      | Writing => rfl

/-- Witness for `C6_borrow_mut_exclusive`: completing a struct through
`borrow_mut` while one shared borrow is still live panics. -/
theorem C6_borrow_mut_exclusive_witness :
    RefCellState.set_items_mut
      (RefCellState.mk (Struct.mk "S" Option.none) (BorrowState.Reading 0)) []
      = Option.none :=
  C6_borrow_mut_exclusive.2
    (RefCellState.mk (Struct.mk "S" Option.none) (BorrowState.Reading 0)) []
    (by decide)

/-- C2: `FunctionType` equality holds exactly when the return types are fully
equal, the argument counts match, and each parameter pair's base types compare
equal in order — parameter names and top-level parameter qualifiers are
ignored — so `fn(int) -> void` equals `fn(const int) -> void` while
`fn(int, int) -> void` is unequal to `fn(int) -> void`. -/
theorem C2_function_type_equality :
    (∀ f g : FunctionType,
      FunctionType.beq f g = some true ↔
        (CType.beq (FunctionType.ret f) (FunctionType.ret g) = some true
          ∧ List.length (FunctionType.args f)
              = List.length (FunctionType.args g)
          ∧ List.Forall₂ (fun a b : CType × String =>
              BaseType.beq (CType.basetype a.1) (CType.basetype b.1)
                = some true)
              (FunctionType.args f) (FunctionType.args g)))
    ∧ FunctionType.beq fn_int_void fn_const_int_void = some true
    ∧ FunctionType.beq fn_int_int_void fn_int_void = some false := by
  refine ⟨?_, ?_, ?_⟩
  · intro f g
    cases f with
    | mk r1 a1 =>
      cases g with
      | mk r2 a2 =>
        simp only [FunctionType.beq, FunctionType.ret, FunctionType.args]
        cases hr : CType.beq r1 r2 with
        | none => simp
        | some v =>
          cases v with
          | false => simp
          | true =>
            by_cases hl : List.length a1 = List.length a2
            · simp [hl, argsBeq_eq_true_iff a1 a2 hl]
            · simp [hl]
  · simp [fn_int_void, fn_const_int_void, int_t, const_int_t, void_t,
      CType.new_ref_bare, CType.new_ref, Qualifiers.new, Qualifiers.set_const,
      FunctionType.beq, CType.beq, BaseType.beq, argsBeq, Qualifiers.eq,
      IntClass.int]
  · simp [fn_int_int_void, fn_int_void, int_t, void_t,
      CType.new_ref_bare, CType.new_ref, Qualifiers.new,
      FunctionType.beq, CType.beq, BaseType.beq, argsBeq, Qualifiers.eq,
      IntClass.int]

/-- C3: two `Array` base types compare equal iff their element types are fully
equal and their sizes compare equal; size comparison is `false` across
different kinds (`None`/`Fixed`/`Expr`), numeric between two `Fixed` sizes,
and a panic (`Option.none`, modelling the `panic!` with its descriptive
message) between two `Expr` sizes. -/
theorem C3_array_equality_rules :
    (∀ (t1 t2 : CType) (s1 s2 : ArraySize),
      BaseType.beq (BaseType.Array t1 s1) (BaseType.Array t2 s2) = some true ↔
        (CType.beq t1 t2 = some true ∧ ArraySize.beq s1 s2 = some true))
    ∧ (∀ a b : Nat,
        ArraySize.beq (ArraySize.Fixed a) (ArraySize.Fixed b) = some true ↔
          a = b)
    ∧ (∀ (n : Nat) (e : ArraySizeExpr),
        ArraySize.beq ArraySize.None (ArraySize.Fixed n) = some false
        ∧ ArraySize.beq (ArraySize.Fixed n) ArraySize.None = some false
        ∧ ArraySize.beq ArraySize.None (ArraySize.Expr e) = some false
        ∧ ArraySize.beq (ArraySize.Expr e) ArraySize.None = some false
        ∧ ArraySize.beq (ArraySize.Fixed n) (ArraySize.Expr e) = some false
        ∧ ArraySize.beq (ArraySize.Expr e) (ArraySize.Fixed n) = some false)
    ∧ (∀ e1 e2 : ArraySizeExpr,
        ArraySize.beq (ArraySize.Expr e1) (ArraySize.Expr e2)
          = Option.none) := by
  refine ⟨?_, ?_, ?_, ?_⟩
  · intro t1 t2 s1 s2
    simp only [BaseType.beq]
    cases hc : CType.beq t1 t2 with
    | none => simp
    | some v =>
      cases v with
      | false => simp
      | true => simp
  · intro a b
    simp [ArraySize.beq]
  · intro n e
    refine ⟨rfl, rfl, rfl, rfl, rfl, rfl⟩
  · intro e1 e2
    rfl

/-- C5: pointee and element qualifiers do participate in equality — pointer
equality is exactly full equality of the pointee types, so `*const int` and
`*int` are unequal — and two independently constructed `int[5]` types are
equal. -/
theorem C5_pointer_and_array_sensitivity :
    CType.beq ptr_const_int_t ptr_int_t = some false
    ∧ CType.beq ptr_int_t ptr_const_int_t = some false
    ∧ CType.beq array_int_5_a array_int_5_b = some true
    ∧ (∀ t1 t2 : CType,
        BaseType.beq (BaseType.Pointer t1) (BaseType.Pointer t2)
          = CType.beq t1 t2) := by
  refine ⟨?_, ?_, ?_, ?_⟩
  · simp [ptr_const_int_t, ptr_int_t, int_t, const_int_t,
      CType.new_ref_bare, CType.new_ref, Qualifiers.new, Qualifiers.set_const,
      CType.beq, BaseType.beq, Qualifiers.eq, IntClass.int]
  · simp [ptr_const_int_t, ptr_int_t, int_t, const_int_t,
      CType.new_ref_bare, CType.new_ref, Qualifiers.new, Qualifiers.set_const,
      CType.beq, BaseType.beq, Qualifiers.eq, IntClass.int]
  · simp [array_int_5_a, array_int_5_b, int_t,
      CType.new_ref_bare, CType.new_ref, Qualifiers.new,
      CType.beq, BaseType.beq, ArraySize.beq, Qualifiers.eq, IntClass.int]
  · intro t1 t2
    simp only [BaseType.beq]

/-- C7: `is_lesser_than` returns true iff self's flag set is a subset of
other's (bit i set in self implies bit i set in other); hence it is reflexive,
and false whenever self's flag set is a proper superset of other's. -/
theorem C7_is_lesser_than_is_subset :
    (∀ a b : Qualifiers,
      Qualifiers.is_lesser_than a b = true ↔
        ∀ i : Nat, Nat.testBit a.v i = true → Nat.testBit b.v i = true)
    ∧ (∀ a : Qualifiers, Qualifiers.is_lesser_than a a = true)
    ∧ (∀ a b : Qualifiers,
        Qualifiers.is_lesser_than b a = true → a.v ≠ b.v →
          Qualifiers.is_lesser_than a b = false) := by
  refine ⟨?_, ?_, ?_⟩
  · intro a b
    simp only [Qualifiers.is_lesser_than, beq_iff_eq]
    constructor
    · intro h i hi
      have h2 := congrArg (fun n => Nat.testBit n i) h
      simp only [Nat.testBit_and, hi, Bool.true_and] at h2
      exact h2
    · intro h
      apply Nat.eq_of_testBit_eq
      intro i
      simp only [Nat.testBit_and]
      cases ha : Nat.testBit a.v i with
      | false => simp
      | true => simp [h i ha]
  · intro a
    simp [Qualifiers.is_lesser_than, Nat.and_self]
  · intro a b hba hne
    cases hab : Qualifiers.is_lesser_than a b with
    | false => rfl
    | true =>
      exfalso
      apply hne
      simp only [Qualifiers.is_lesser_than, beq_iff_eq] at hab hba
      rw [← hab, Nat.and_comm, hba]

/-- Witness for `C7_is_lesser_than_is_subset`: the flag set {const, volatile}
(value 3) is a proper superset of {const} (value 1), and `is_lesser_than`
rejects it. -/
theorem C7_is_lesser_than_is_subset_witness :
    Qualifiers.is_lesser_than ⟨3⟩ ⟨1⟩ = false :=
  C7_is_lesser_than_is_subset.2.2 ⟨3⟩ ⟨1⟩ (by decide) (by decide)

/-- C8: `Qualifiers::new` has all three flags clear; applying `set_const`
twice to it leaves exactly the const flag set, and analogously for
`set_volatile` and `set_restrict`; each setter is idempotent on every
qualifier set. -/
theorem C8_qualifier_setters :
    (Qualifiers.is_const Qualifiers.new = false
      ∧ Qualifiers.is_volatile Qualifiers.new = false
      ∧ Qualifiers.is_restrict Qualifiers.new = false)
    ∧ (Qualifiers.is_const
          (Qualifiers.set_const (Qualifiers.set_const Qualifiers.new)) = true
      ∧ Qualifiers.is_volatile
          (Qualifiers.set_const (Qualifiers.set_const Qualifiers.new)) = false
      ∧ Qualifiers.is_restrict
          (Qualifiers.set_const (Qualifiers.set_const Qualifiers.new)) = false)
    ∧ (Qualifiers.is_volatile
          (Qualifiers.set_volatile (Qualifiers.set_volatile Qualifiers.new))
            = true
      ∧ Qualifiers.is_const
          (Qualifiers.set_volatile (Qualifiers.set_volatile Qualifiers.new))
            = false
      ∧ Qualifiers.is_restrict
          (Qualifiers.set_volatile (Qualifiers.set_volatile Qualifiers.new))
            = false)
    ∧ (Qualifiers.is_restrict
          (Qualifiers.set_restrict (Qualifiers.set_restrict Qualifiers.new))
            = true
      ∧ Qualifiers.is_const
          (Qualifiers.set_restrict (Qualifiers.set_restrict Qualifiers.new))
            = false
      ∧ Qualifiers.is_volatile
          (Qualifiers.set_restrict (Qualifiers.set_restrict Qualifiers.new))
            = false)
    ∧ (∀ q : Qualifiers,
        Qualifiers.set_const (Qualifiers.set_const q) = Qualifiers.set_const q)
    ∧ (∀ q : Qualifiers,
        Qualifiers.set_volatile (Qualifiers.set_volatile q)
          = Qualifiers.set_volatile q)
    ∧ (∀ q : Qualifiers,
        Qualifiers.set_restrict (Qualifiers.set_restrict q)
          = Qualifiers.set_restrict q) := by
  refine ⟨by decide, by decide, by decide, by decide, ?_, ?_, ?_⟩
  · intro q
    simp [Qualifiers.set_const, Nat.or_assoc]
  · intro q
    simp [Qualifiers.set_volatile, Nat.or_assoc]
  · intro q
    simp [Qualifiers.set_restrict, Nat.or_assoc]

/-- C9: `Type` equality is a partial operation: whenever two types are
`Expr`-sized arrays (and the element comparison does not already return
`false`), comparing them panics — in particular comparing an `Expr`-sized
array type with itself panics, so equality is not reflexive — while an `Expr`
size compared against a `None` or `Fixed` size returns `false` without
panicking. -/
theorem C9_vla_equality_panics :
    (∀ (t1 t2 : CType) (q1 q2 : Qualifiers) (e1 e2 : ArraySizeExpr),
      CType.beq t1 t2 ≠ some false →
        CType.beq (CType.mk (BaseType.Array t1 (ArraySize.Expr e1)) q1)
          (CType.mk (BaseType.Array t2 (ArraySize.Expr e2)) q2) = Option.none)
    ∧ (∀ (t : CType) (q : Qualifiers) (e : ArraySizeExpr),
        CType.beq (CType.mk (BaseType.Array t (ArraySize.Expr e)) q)
          (CType.mk (BaseType.Array t (ArraySize.Expr e)) q) = Option.none)
    ∧ (∀ (n : Nat) (e : ArraySizeExpr),
        ArraySize.beq (ArraySize.Expr e) ArraySize.None = some false
        ∧ ArraySize.beq (ArraySize.Expr e) (ArraySize.Fixed n) = some false
        ∧ ArraySize.beq ArraySize.None (ArraySize.Expr e) = some false
        ∧ ArraySize.beq (ArraySize.Fixed n) (ArraySize.Expr e)
            = some false) := by
  refine ⟨?_, ?_, ?_⟩
  · intro t1 t2 q1 q2 e1 e2 h
    exact beq_expr_array_none t1 t2 q1 q2 e1 e2 h
  · intro t q e
    exact beq_expr_array_none t t q q e e (CType.beq_self_ne_false t)
  · intro n e
    refine ⟨rfl, rfl, rfl, rfl⟩

/-- Witness for `C9_vla_equality_panics`: comparing the type `void[expr]` with
itself panics; the hypothesis (`void == void` does not return `false`) holds
since that comparison evaluates to `true`. -/
theorem C9_vla_equality_panics_witness :
    CType.beq
      (CType.mk (BaseType.Array void_t (ArraySize.Expr ⟨⟨0⟩⟩)) Qualifiers.new)
      (CType.mk (BaseType.Array void_t (ArraySize.Expr ⟨⟨0⟩⟩)) Qualifiers.new)
      = Option.none :=
  C9_vla_equality_panics.1 void_t void_t Qualifiers.new Qualifiers.new
    ⟨⟨0⟩⟩ ⟨⟨0⟩⟩
    (by simp [void_t, CType.new_ref_bare, CType.new_ref, CType.beq,
      BaseType.beq, Qualifiers.eq])

/-- C10: `Type::new_ref_bare` builds the same node as `Type::new_ref` with an
all-clear qualifier set: the results are identical, carry qualifier value 0,
and compare equal under `PartialEq` whenever the comparison terminates (being
a self-comparison it can only panic, never return `false`). -/
theorem C10_new_ref_bare_agrees :
    ∀ b : BaseType,
      CType.new_ref_bare b = CType.new_ref b Qualifiers.new
      ∧ CType.qualifiers (CType.new_ref_bare b) = Qualifiers.new
      ∧ (CType.beq (CType.new_ref_bare b) (CType.new_ref b Qualifiers.new)
            = some true
        ∨ CType.beq (CType.new_ref_bare b) (CType.new_ref b Qualifiers.new)
            = Option.none) := by
  intro b
  refine ⟨rfl, rfl, ?_⟩
  exact CType.beq_self_true_or_panic (CType.new_ref b Qualifiers.new)
